import Mathlib

/-!
Shallow embedding of the pixelpulse photo-sharing application
(`src/app.py`, `src/models.py`).

The relational rows of `models.py` become Lean structures; the database
session becomes an explicit `DBState` record threaded through the request
handlers.  Each Flask handler of `app.py` becomes a Lean function from its
request inputs and the current `DBState` to the new `DBState` paired with
the handler's observable response.  External effects are modelled
explicitly: the TextBlob polarity score of a comment text is an input
(`score : ℚ`, the spec's continuous polarity value in [-1,1]); PIL image
decoding/statistics are an `Option ImgData` input (`none` = the library
call raised); the blob/file stores are a list of stored locators in the
state; `datetime.utcnow` timestamps and autoincrement ids are inputs.
-/

/-- Row of the `likes` table (`models.py` class `Like`):
composite primary key `(user_id, photo_id)` plus a timestamp. -/
structure LikeRow where
  user_id : Nat
  photo_id : Nat
  timestamp : Nat
deriving DecidableEq

/-- Row of the `saves` table (`models.py` class `Save`):
composite primary key `(user_id, photo_id)` plus a timestamp. -/
structure SaveRow where
  user_id : Nat
  photo_id : Nat
  timestamp : Nat
deriving DecidableEq

/-- Row of the comment table (`models.py` class `Comment`).  Its columns are
exactly `id`, `text`, `timestamp`, `user_id`, `photo_id`; there is no
sentiment column. -/
structure CommentRow where
  id : Nat
  text : String
  timestamp : Nat
  user_id : Nat
  photo_id : Nat
deriving DecidableEq

/-- Row of the photo table (`models.py` class `Photo`). -/
structure PhotoRow where
  id : Nat
  filename : String
  title : String
  caption : String
  location : String
  people_present : String
  auto_tags : String
  uploaded_at : Nat
  user_id : Nat
deriving DecidableEq

/-- The persistent state a request handler can read and write: the four
row tables of `models.py` that the claims concern, plus the set of stored
file locators (Azure blob URLs / local upload paths), modelled as the list
of `filename` locators currently backed by a stored object. -/
structure DBState where
  photos : List PhotoRow
  comments : List CommentRow
  likes : List LikeRow
  saves : List SaveRow
  files : List String
deriving DecidableEq

/-- Result of `add_comment` (`app.py` lines 299-314): either the blocked
JSON (`success: False` with a message) or the accepted JSON
(`success: True` with username, text and sentiment label). -/
inductive CommentResult where
  | blocked (message : String)
  | accepted (username text sentiment : String)
deriving DecidableEq

/-- The `success` field of the JSON returned by `add_comment`. -/
def CommentResult.success : CommentResult → Bool
  | .blocked _ => false
  | .accepted _ _ _ => true

/-- Handler `add_comment` (`app.py` lines 299-314).  `score` is the
TextBlob polarity of `text`; `cid` the autoincremented comment id and
`now` the creation timestamp.  A score below `-0.3` is blocked before any
row is written; otherwise the sentiment label is classified
(`>= 0.3` positive, `<= -0.1` negative, else neutral), a `Comment` row is
inserted referencing `photo_id` with no existence check on the photo, and
the accepted JSON is returned. -/
def add_comment (uid : Nat) (username : String) (photo_id : Nat)
    (text : String) (score : ℚ) (cid now : Nat) (s : DBState) :
    DBState × CommentResult :=
  if score < mkRat (-3) 10 then
    (s, .blocked "AI Blocked: Negative content! 🚫")
  else
    let sentiment :=
      if score ≥ mkRat 3 10 then "positive"
      else if score ≤ mkRat (-1) 10 then "negative"
      else "neutral"
    ({ s with comments := s.comments ++ [⟨cid, text, now, uid, photo_id⟩] },
     .accepted username text sentiment)

/-- The row filter `Like.query.filter_by(user_id=..., photo_id=...)`
(`app.py` line 320). -/
def likeMatches (uid pid : Nat) (l : LikeRow) : Bool :=
  l.user_id == uid && l.photo_id == pid

/-- The row filter `Save.query.filter_by(user_id=..., photo_id=...)`
(`app.py` line 336). -/
def saveMatches (uid pid : Nat) (l : SaveRow) : Bool :=
  l.user_id == uid && l.photo_id == pid

/-- Whether a Like row for the `(user, photo)` pair exists: the presence
state toggled by `toggle_like` (also the meaning of
`Photo.is_liked_by`, `models.py` lines 78-79). -/
def likeExists (s : DBState) (uid pid : Nat) : Bool :=
  s.likes.any (likeMatches uid pid)

/-- Whether a Save row for the `(user, photo)` pair exists (the meaning of
`Photo.is_saved_by`, `models.py` lines 80-81). -/
def saveExists (s : DBState) (uid pid : Nat) : Bool :=
  s.saves.any (saveMatches uid pid)

/-- Handler `toggle_like` (`app.py` lines 316-329).  `Photo.query.get_or_404`
aborts with a 404 (`none`, state unchanged) when no photo has id
`photo_id`.  Otherwise the existing Like row for the pair is deleted, or a
new one inserted, and the JSON `{count, liked}` is returned, where `count`
is the number of Like rows of the photo after the commit. -/
def toggle_like (uid photo_id now : Nat) (s : DBState) :
    DBState × Option (Nat × Bool) :=
  match s.photos.find? (fun ph => ph.id == photo_id) with
  | none => (s, none)
  | some _ =>
    match s.likes.find? (likeMatches uid photo_id) with
    | some existing =>
      let likes' := s.likes.erase existing
      ({ s with likes := likes' },
       some ((likes'.filter (fun l => l.photo_id == photo_id)).length, false))
    | none =>
      let likes' := s.likes ++ [⟨uid, photo_id, now⟩]
      ({ s with likes := likes' },
       some ((likes'.filter (fun l => l.photo_id == photo_id)).length, true))

/-- Handler `toggle_save` (`app.py` lines 332-344): same toggle shape as
`toggle_like` on the `saves` table, returning the JSON `{saved}` flag. -/
def toggle_save (uid photo_id now : Nat) (s : DBState) :
    DBState × Option Bool :=
  match s.photos.find? (fun ph => ph.id == photo_id) with
  | none => (s, none)
  | some _ =>
    match s.saves.find? (saveMatches uid photo_id) with
    | some existing =>
      ({ s with saves := s.saves.erase existing }, some false)
    | none =>
      ({ s with saves := s.saves ++ [⟨uid, photo_id, now⟩] }, some true)

/-- What `analyze_image` (`app.py` lines 123-149) reads off a decoded PIL
image after the RGB conversion: the size, the mean of the grayscale
conversion (`ImageStat.Stat(img.convert('L')).mean[0]`), and the single
pixel of the 1x1 resize. -/
structure ImgData where
  width : Nat
  height : Nat
  meanLum : ℚ
  pxR : Nat
  pxG : Nat
  pxB : Nat
deriving DecidableEq

/-- Function `analyze_image` (`app.py` lines 123-149).  The input is
`none` when one of the PIL calls in the `try` block raises, in which case
the constant fallback label is returned; otherwise the three tags (area
threshold, mean-luminance buckets, dominant channel of the 1x1 pixel) are
joined with `" | "`. -/
def analyze_image (img : Option ImgData) : String :=
  match img with
  | none => "Standard Photo"
  | some d =>
    let tags : List String :=
      [if d.width * d.height > 1000000 then "HD ᴴᴰ" else "SD",
       if d.meanLum > 150 then "Bright ☀️"
       else if d.meanLum < 80 then "Dark 🌙"
       else "Neutral Lighting ☁️",
       if d.pxR > d.pxG ∧ d.pxR > d.pxB then "Warm Tone 🔴"
       else if d.pxB > d.pxR ∧ d.pxB > d.pxG then "Cool Tone 🔵"
       else "Balanced Color 🎨"]
    String.intercalate " | " tags

/-- The process-wide storage configuration read at startup (`app.py`
lines 75-89): whether a blob service client was initialized (Python
truthiness of `blob_service_client`), the container name, and the local
fallback folder.  String truthiness in Python is non-emptiness. -/
structure StorageConfig where
  blob_service_client : Bool
  azure_container_name : String
  local_upload_folder : String
deriving DecidableEq

/-- Function modelling `os.path.join a b` for the path components used at
startup: a component starting with a separator replaces the left part,
otherwise the parts are joined with exactly one separator. -/
def joinPath (a b : String) : String :=
  if b.startsWith "/" then b
  else if a = "" then b
  else if a.endsWith "/" then a ++ b
  else a ++ "/" ++ b

/-- The startup assignment `LOCAL_UPLOAD_FOLDER =
os.path.join(app.root_path, 'static', 'uploads')` (`app.py` line 80),
as a function of the application root path. -/
def LOCAL_UPLOAD_FOLDER (root_path : String) : String :=
  joinPath (joinPath root_path "static") "uploads"

/-- Observable outcome of `creator_dashboard` (`app.py` lines 180-234):
redirect away for non-creators; render the form when no file was posted;
the success redirect after a stored upload; the "No storage configured"
flash; or the "Upload Error" flash when a library call raises. -/
inductive UploadOutcome where
  | redirectFeed
  | renderForm
  | uploaded (file_url : String)
  | noStorage
  | uploadError
deriving DecidableEq

/-- Handler `creator_dashboard`, POST path (`app.py` lines 180-234).
`file` is `none` when the request carried no `photo` file, otherwise
`some (filename, opened)` where `opened` is the result of the PIL calls:
`none` if `Image.open`/`convert` raised (caught at line 230), otherwise
the image data handed to `analyze_image` (whose own stats failure is its
`Option` argument, folded into `opened` here).  The storage branch
(lines 196-221) picks Azure when a client is configured and the container
name is truthy, else the local folder when that path is truthy, else
flashes "No storage configured"; only the two storing branches create the
`Photo` row (lines 223-227).  The stored locator is appended to `files`;
`pid` is the new photo id and `now` the timestamp. -/
def creator_dashboard (cfg : StorageConfig) (role : String) (uid : Nat)
    (file : Option (String × Option ImgData))
    (title caption location people : String) (pid now : Nat)
    (s : DBState) : DBState × UploadOutcome :=
  if role ≠ "creator" then (s, .redirectFeed)
  else
    match file with
    | none => (s, .renderForm)
    | some (_, none) => (s, .uploadError)
    | some (filename, some img) =>
      let auto_tags := analyze_image (some img)
      let b_name := toString now ++ "_" ++ filename
      if cfg.blob_service_client && cfg.azure_container_name ≠ "" then
        let file_url := "https://blob.example/" ++ cfg.azure_container_name ++ "/" ++ b_name
        ({ s with
            photos := s.photos ++
              [⟨pid, file_url, title, caption, location, people, auto_tags, now, uid⟩],
            files := s.files ++ [file_url] },
         .uploaded file_url)
      else if cfg.local_upload_folder ≠ "" then
        let file_url := "/static/uploads/" ++ b_name
        ({ s with
            photos := s.photos ++
              [⟨pid, file_url, title, caption, location, people, auto_tags, now, uid⟩],
            files := s.files ++ [file_url] },
         .uploaded file_url)
      else (s, .noStorage)

/-- The stored-file removal step of `delete_post` (`app.py` lines 355-379):
an `http` locator is deleted from blob storage when the Azure client and
container are configured and the URL splits on the container path;
otherwise a locator containing `/static/uploads/` is deleted from the
local folder.  Deleting the stored object is modelled as erasing the
photo's locator from `files`; every failure inside this step is caught,
so it never aborts the handler. -/
def removeStoredFile (cfg : StorageConfig) (filename : String)
    (files : List String) : List String :=
  if filename ≠ "" && filename.startsWith "http" &&
      cfg.azure_container_name ≠ "" && cfg.blob_service_client then
    if (filename.splitOn ("/" ++ cfg.azure_container_name ++ "/")).length = 2 then
      files.erase filename
    else files
  else
    if (filename.splitOn "/static/uploads/").length ≥ 2 then
      files.erase filename
    else files

/-- Observable outcome of `delete_post` (`app.py` lines 347-388): 404 from
`get_or_404`; the 403 JSON for a non-owner; the 500 JSON when the database
delete raises; or the success JSON. -/
inductive DeleteOutcome where
  | notFound
  | notAuthorized
  | dbFailed
  | ok
deriving DecidableEq

/-- Handler `delete_post` (`app.py` lines 347-388).  `get_or_404` aborts
with 404 for a missing photo; a non-owner gets the 403 JSON before any
state is touched; then the stored file is removed best-effort, and the
database delete (`dbOk` models whether commit succeeds) removes the photo
row — `id` is the primary key, so deleting the fetched row removes exactly
the rows with this id — and cascades (`models.py` line 76,
`cascade="all, delete-orphan"`) to the photo's comments.  No cascade is
declared on `Photo.likes` or `Photo.saves` (`models.py` lines 74-75), so
the handler never touches those tables.  On a commit failure the rows all
remain and the 500 JSON is returned. -/
def delete_post (cfg : StorageConfig) (uid photo_id : Nat) (dbOk : Bool)
    (s : DBState) : DBState × DeleteOutcome :=
  match s.photos.find? (fun ph => ph.id == photo_id) with
  | none => (s, .notFound)
  | some photo =>
    if photo.user_id ≠ uid then (s, .notAuthorized)
    else
      let files' := removeStoredFile cfg photo.filename s.files
      if dbOk then
        ({ s with
            photos := s.photos.filter (fun ph => ph.id ≠ photo_id),
            comments := s.comments.filter (fun c => c.photo_id ≠ photo_id),
            files := files' },
         .ok)
      else
        ({ s with files := files' }, .dbFailed)

/-- The composite-primary-key invariant of the `likes` table: no two rows
share the `(user_id, photo_id)` key. -/
def likesPKUnique (s : DBState) : Prop :=
  s.likes.Pairwise (fun a b => (a.user_id, a.photo_id) ≠ (b.user_id, b.photo_id))

/-- The composite-primary-key invariant of the `saves` table. -/
def savesPKUnique (s : DBState) : Prop :=
  s.saves.Pairwise (fun a b => (a.user_id, a.photo_id) ≠ (b.user_id, b.photo_id))

instance (s : DBState) : Decidable (likesPKUnique s) := by
  unfold likesPKUnique; infer_instance

instance (s : DBState) : Decidable (savesPKUnique s) := by
  unfold savesPKUnique; infer_instance

/-- The string-valued column contents persisted in a comment row: the only
string column the Comment table declares (`models.py` lines 25-31) is
`text`. -/
def CommentRow.storedStrings (c : CommentRow) : List String := [c.text]
example : (add_comment 1 "a" 2 "bad" (mkRat (-1) 2) 0 0 ⟨[], [], [], [], []⟩).2.success = false := by
  decide

example : (add_comment 1 "a" 2 "nice" (mkRat 1 2) 0 0 ⟨[], [], [], [], []⟩).2
    = .accepted "a" "nice" "positive" := by decide

/-- The `-0.3` threshold spelled with `mkRat` agrees with the rational `-0.3`. -/
example : mkRat (-3) 10 = -(3 : ℚ)/10 := by
  rw [Rat.mkRat_eq_divInt]; norm_num [Rat.divInt_eq_div]

example : mkRat 3 10 = (3 : ℚ)/10 := by norm_num [mkRat]

example : mkRat (-1) 10 = -(1 : ℚ)/10 := by
  rw [Rat.mkRat_eq_divInt]; norm_num [Rat.divInt_eq_div]

example :
    (toggle_like 1 2 5 ⟨[⟨2, "f", "t", "c", "l", "p", "a", 0, 1⟩], [], [], [], []⟩).2
      = some (1, true) := by decide

example :
    (toggle_like 1 2 5 ⟨[⟨2, "f", "t", "c", "l", "p", "a", 0, 1⟩], [], [⟨1, 2, 0⟩], [], []⟩).2
      = some (0, false) := by decide

/-- Helper: a list whose rows pairwise never both satisfy `p` has no row
satisfying `p` left after erasing the row that `find?` returned. -/
lemma any_erase_find_eq_false {α : Type} [DecidableEq α] (p : α → Bool) :
    ∀ (l : List α) (a : α),
      l.Pairwise (fun x y => ¬(p x = true ∧ p y = true)) →
      l.find? p = some a → (l.erase a).any p = false := by
  intro l
  induction l with
  | nil => intro a _ h; simp at h
  | cons b t ih =>
    intro a hpw hfind
    rcases List.pairwise_cons.mp hpw with ⟨hb, ht⟩
    by_cases hpb : p b = true
    · rw [List.find?_cons_of_pos _ hpb] at hfind
      obtain rfl : b = a := by injection hfind
      rw [List.erase_cons_head]
      refine List.any_eq_false.mpr ?_
      intro x hx hpx
      exact hb x hx ⟨hpb, hpx⟩
    · rw [List.find?_cons_of_neg _ hpb] at hfind
      have hba : ¬(b == a) := by
        have hpa := List.find?_some hfind
        intro h
        exact hpb (by rw [show b = a by simpa using h]; exact hpa)
      rw [List.erase_cons_tail hba]
      simp only [List.any_cons, Bool.or_eq_false_iff]
      exact ⟨by simpa using hpb, ih a ht hfind⟩

/-- Helper: `likeMatches` unfolded to propositional equalities. -/
lemma likeMatches_iff {uid pid : Nat} {l : LikeRow} :
    likeMatches uid pid l = true ↔ l.user_id = uid ∧ l.photo_id = pid := by
  simp [likeMatches]

/-- Helper: `saveMatches` unfolded to propositional equalities. -/
lemma saveMatches_iff {uid pid : Nat} {l : SaveRow} :
    saveMatches uid pid l = true ↔ l.user_id = uid ∧ l.photo_id = pid := by
  simp [saveMatches]

/-- Helper: the composite-PK invariant implies no two Like rows both match
one `(uid, pid)` filter. -/
lemma likes_pairwise_not_both (s : DBState) (uid pid : Nat)
    (h : likesPKUnique s) :
    s.likes.Pairwise
      (fun x y => ¬(likeMatches uid pid x = true ∧ likeMatches uid pid y = true)) := by
  refine List.Pairwise.imp ?_ h
  intro a b hk ⟨ha, hb⟩
  rcases likeMatches_iff.mp ha with ⟨ha1, ha2⟩
  rcases likeMatches_iff.mp hb with ⟨hb1, hb2⟩
  exact hk (by rw [ha1, ha2, hb1, hb2])

/-- Helper: the composite-PK invariant implies no two Save rows both match
one `(uid, pid)` filter. -/
lemma saves_pairwise_not_both (s : DBState) (uid pid : Nat)
    (h : savesPKUnique s) :
    s.saves.Pairwise
      (fun x y => ¬(saveMatches uid pid x = true ∧ saveMatches uid pid y = true)) := by
  refine List.Pairwise.imp ?_ h
  intro a b hk ⟨ha, hb⟩
  rcases saveMatches_iff.mp ha with ⟨ha1, ha2⟩
  rcases saveMatches_iff.mp hb with ⟨hb1, hb2⟩
  exact hk (by rw [ha1, ha2, hb1, hb2])

/-- Helper: `toggle_like` never touches the photo table. -/
lemma toggle_like_photos (uid pid now : Nat) (s : DBState) :
    (toggle_like uid pid now s).1.photos = s.photos := by
  unfold toggle_like
  split
  · rfl
  · split <;> rfl

/-- Helper: `toggle_save` never touches the photo table. -/
lemma toggle_save_photos (uid pid now : Nat) (s : DBState) :
    (toggle_save uid pid now s).1.photos = s.photos := by
  unfold toggle_save
  split
  · rfl
  · split <;> rfl

/-- Helper: the state produced by `toggle_like` when the Like row exists. -/
lemma toggle_like_state_found (uid pid now : Nat) (s : DBState)
    (ph : PhotoRow) (ex : LikeRow)
    (hph : s.photos.find? (fun p => p.id == pid) = some ph)
    (hfind : s.likes.find? (likeMatches uid pid) = some ex) :
    (toggle_like uid pid now s).1 = { s with likes := s.likes.erase ex } := by
  unfold toggle_like; rw [hph, hfind]

/-- Helper: the state produced by `toggle_like` when no Like row exists. -/
lemma toggle_like_state_missing (uid pid now : Nat) (s : DBState)
    (ph : PhotoRow)
    (hph : s.photos.find? (fun p => p.id == pid) = some ph)
    (hfind : s.likes.find? (likeMatches uid pid) = none) :
    (toggle_like uid pid now s).1
      = { s with likes := s.likes ++ [⟨uid, pid, now⟩] } := by
  unfold toggle_like; rw [hph, hfind]

/-- Helper: a single `toggle_like` on an existing photo flips the presence
of the Like row for the pair. -/
lemma toggle_like_flip (uid pid now : Nat) (s : DBState)
    (hph : (s.photos.find? (fun ph => ph.id == pid)).isSome)
    (hlu : likesPKUnique s) :
    likeExists (toggle_like uid pid now s).1 uid pid = !likeExists s uid pid := by
  obtain ⟨ph, hphe⟩ := Option.isSome_iff_exists.mp hph
  cases hfind : s.likes.find? (likeMatches uid pid) with
  | some ex =>
    have hold : likeExists s uid pid = true :=
      List.any_eq_true.mpr
        ⟨ex, List.mem_of_find?_eq_some hfind, List.find?_some hfind⟩
    have herase :=
      any_erase_find_eq_false (likeMatches uid pid) s.likes ex
        (likes_pairwise_not_both s uid pid hlu) hfind
    rw [toggle_like_state_found uid pid now s ph ex hphe hfind, hold]
    simpa [likeExists] using herase
  | none =>
    have hold : likeExists s uid pid = false :=
      List.any_eq_false.mpr (by simpa using List.find?_eq_none.mp hfind)
    rw [toggle_like_state_missing uid pid now s ph hphe hfind, hold]
    simp [likeExists, likeMatches]

/-- Helper: two successive `toggle_like` calls on an existing photo restore
the presence of the Like row for the pair. -/
lemma toggle_like_twice (uid pid now1 now2 : Nat) (s : DBState)
    (hph : (s.photos.find? (fun ph => ph.id == pid)).isSome)
    (hlu : likesPKUnique s) :
    likeExists (toggle_like uid pid now2 (toggle_like uid pid now1 s).1).1 uid pid
      = likeExists s uid pid := by
  obtain ⟨ph, hphe⟩ := Option.isSome_iff_exists.mp hph
  cases hfind : s.likes.find? (likeMatches uid pid) with
  | some ex =>
    have hold : likeExists s uid pid = true :=
      List.any_eq_true.mpr
        ⟨ex, List.mem_of_find?_eq_some hfind, List.find?_some hfind⟩
    have herase :=
      any_erase_find_eq_false (likeMatches uid pid) s.likes ex
        (likes_pairwise_not_both s uid pid hlu) hfind
    have hs1 := toggle_like_state_found uid pid now1 s ph ex hphe hfind
    set s1 : DBState := { s with likes := s.likes.erase ex } with hs1def
    have hph1 : s1.photos.find? (fun p => p.id == pid) = some ph := hphe
    have hfind1 : s1.likes.find? (likeMatches uid pid) = none :=
      List.find?_eq_none.mpr (by simpa using List.any_eq_false.mp herase)
    rw [hs1, toggle_like_state_missing uid pid now2 s1 ph hph1 hfind1, hold]
    simp [likeExists, likeMatches]
  | none =>
    have hold : likeExists s uid pid = false :=
      List.any_eq_false.mpr (by simpa using List.find?_eq_none.mp hfind)
    have hnew : likeMatches uid pid ⟨uid, pid, now1⟩ = true := by
      simp [likeMatches]
    have hs1 := toggle_like_state_missing uid pid now1 s ph hphe hfind
    have hph1 : ({ s with likes := s.likes ++ [⟨uid, pid, now1⟩] } : DBState).photos.find?
        (fun p => p.id == pid) = some ph := hphe
    have hfind1 : ({ s with likes := s.likes ++ [⟨uid, pid, now1⟩] } : DBState).likes.find?
        (likeMatches uid pid) = some ⟨uid, pid, now1⟩ := by
      show (s.likes ++ [(⟨uid, pid, now1⟩ : LikeRow)]).find? (likeMatches uid pid) = _
      rw [List.find?_append, hfind]
      simp [hnew]
    have hnotmem : (⟨uid, pid, now1⟩ : LikeRow) ∉ s.likes := fun hmem =>
      (List.find?_eq_none.mp hfind _ hmem) hnew
    have herase2 : (s.likes ++ [(⟨uid, pid, now1⟩ : LikeRow)]).erase ⟨uid, pid, now1⟩
        = s.likes := by
      rw [List.erase_append_right _ hnotmem]
      simp
    rw [hs1, toggle_like_state_found uid pid now2 _ ph ⟨uid, pid, now1⟩ hph1 hfind1,
      hold]
    show ((s.likes ++ [(⟨uid, pid, now1⟩ : LikeRow)]).erase
        (⟨uid, pid, now1⟩ : LikeRow)).any (likeMatches uid pid) = false
    rw [herase2]
    simpa [likeExists] using hold

/-- Helper: the state produced by `toggle_save` when the Save row exists. -/
lemma toggle_save_state_found (uid pid now : Nat) (s : DBState)
    (ph : PhotoRow) (ex : SaveRow)
    (hph : s.photos.find? (fun p => p.id == pid) = some ph)
    (hfind : s.saves.find? (saveMatches uid pid) = some ex) :
    (toggle_save uid pid now s).1 = { s with saves := s.saves.erase ex } := by
  unfold toggle_save; rw [hph, hfind]

/-- Helper: the state produced by `toggle_save` when no Save row exists. -/
lemma toggle_save_state_missing (uid pid now : Nat) (s : DBState)
    (ph : PhotoRow)
    (hph : s.photos.find? (fun p => p.id == pid) = some ph)
    (hfind : s.saves.find? (saveMatches uid pid) = none) :
    (toggle_save uid pid now s).1
      = { s with saves := s.saves ++ [⟨uid, pid, now⟩] } := by
  unfold toggle_save; rw [hph, hfind]

/-- Helper: a single `toggle_save` on an existing photo flips the presence
of the Save row for the pair. -/
lemma toggle_save_flip (uid pid now : Nat) (s : DBState)
    (hph : (s.photos.find? (fun ph => ph.id == pid)).isSome)
    (hsu : savesPKUnique s) :
    saveExists (toggle_save uid pid now s).1 uid pid = !saveExists s uid pid := by
  obtain ⟨ph, hphe⟩ := Option.isSome_iff_exists.mp hph
  cases hfind : s.saves.find? (saveMatches uid pid) with
  | some ex =>
    have hold : saveExists s uid pid = true :=
      List.any_eq_true.mpr
        ⟨ex, List.mem_of_find?_eq_some hfind, List.find?_some hfind⟩
    have herase :=
      any_erase_find_eq_false (saveMatches uid pid) s.saves ex
        (saves_pairwise_not_both s uid pid hsu) hfind
    rw [toggle_save_state_found uid pid now s ph ex hphe hfind, hold]
    simpa [saveExists] using herase
  | none =>
    have hold : saveExists s uid pid = false :=
      List.any_eq_false.mpr (by simpa using List.find?_eq_none.mp hfind)
    rw [toggle_save_state_missing uid pid now s ph hphe hfind, hold]
    simp [saveExists, saveMatches]

/-- Helper: two successive `toggle_save` calls on an existing photo restore
the presence of the Save row for the pair. -/
lemma toggle_save_twice (uid pid now1 now2 : Nat) (s : DBState)
    (hph : (s.photos.find? (fun ph => ph.id == pid)).isSome)
    (hsu : savesPKUnique s) :
    saveExists (toggle_save uid pid now2 (toggle_save uid pid now1 s).1).1 uid pid
      = saveExists s uid pid := by
  obtain ⟨ph, hphe⟩ := Option.isSome_iff_exists.mp hph
  cases hfind : s.saves.find? (saveMatches uid pid) with
  | some ex =>
    have hold : saveExists s uid pid = true :=
      List.any_eq_true.mpr
        ⟨ex, List.mem_of_find?_eq_some hfind, List.find?_some hfind⟩
    have herase :=
      any_erase_find_eq_false (saveMatches uid pid) s.saves ex
        (saves_pairwise_not_both s uid pid hsu) hfind
    have hs1 := toggle_save_state_found uid pid now1 s ph ex hphe hfind
    have hph1 : ({ s with saves := s.saves.erase ex } : DBState).photos.find?
        (fun p => p.id == pid) = some ph := hphe
    have hfind1 : ({ s with saves := s.saves.erase ex } : DBState).saves.find?
        (saveMatches uid pid) = none :=
      List.find?_eq_none.mpr (by simpa using List.any_eq_false.mp herase)
    rw [hs1, toggle_save_state_missing uid pid now2 _ ph hph1 hfind1, hold]
    simp [saveExists, saveMatches]
  | none =>
    have hold : saveExists s uid pid = false :=
      List.any_eq_false.mpr (by simpa using List.find?_eq_none.mp hfind)
    have hnew : saveMatches uid pid ⟨uid, pid, now1⟩ = true := by
      simp [saveMatches]
    have hs1 := toggle_save_state_missing uid pid now1 s ph hphe hfind
    have hph1 : ({ s with saves := s.saves ++ [⟨uid, pid, now1⟩] } : DBState).photos.find?
        (fun p => p.id == pid) = some ph := hphe
    have hfind1 : ({ s with saves := s.saves ++ [⟨uid, pid, now1⟩] } : DBState).saves.find?
        (saveMatches uid pid) = some ⟨uid, pid, now1⟩ := by
      show (s.saves ++ [(⟨uid, pid, now1⟩ : SaveRow)]).find? (saveMatches uid pid) = _
      rw [List.find?_append, hfind]
      simp [hnew]
    have hnotmem : (⟨uid, pid, now1⟩ : SaveRow) ∉ s.saves := fun hmem =>
      (List.find?_eq_none.mp hfind _ hmem) hnew
    have herase2 : (s.saves ++ [(⟨uid, pid, now1⟩ : SaveRow)]).erase ⟨uid, pid, now1⟩
        = s.saves := by
      rw [List.erase_append_right _ hnotmem]
      simp
    rw [hs1, toggle_save_state_found uid pid now2 _ ph ⟨uid, pid, now1⟩ hph1 hfind1,
      hold]
    show ((s.saves ++ [(⟨uid, pid, now1⟩ : SaveRow)]).erase
        (⟨uid, pid, now1⟩ : SaveRow)).any (saveMatches uid pid) = false
    rw [herase2]
    simpa [saveExists] using hold

/-- Helper: appending a nonempty string on the right never yields the
empty string. -/
lemma append_ne_empty_right (a b : String) (hb : b ≠ "") : a ++ b ≠ "" := by
  intro h
  apply hb
  have h2 := congrArg String.data h
  simp [String.data_append] at h2
  exact String.ext h2.2

/-- Helper: the startup local upload folder is a non-empty path whatever
the application root path is. -/
lemma local_upload_folder_ne_empty (root : String) :
    LOCAL_UPLOAD_FOLDER root ≠ "" := by
  unfold LOCAL_UPLOAD_FOLDER
  generalize joinPath root "static" = a
  unfold joinPath
  split
  · decide
  · split
    · decide
    · split
      · exact append_ne_empty_right a "uploads" (by decide)
      · exact append_ne_empty_right _ _ (by decide)

/-- Helper: joining exactly three strings with the pipe separator. -/
lemma intercalate_three (a b c : String) :
    String.intercalate " | " [a, b, c] = a ++ " | " ++ b ++ " | " ++ c := by
  show (((a ++ " | ") ++ b) ++ " | ") ++ c = _
  simp [String.append_assoc]

/-- C1: a comment submission whose polarity score is strictly below `-0.3`
is rejected (`success = false`) with the whole state unchanged (so no
Comment row is created); a submission with score `>= -0.3` is persisted as
a Comment row appended to the comment table and answered with
`success = true` carrying a sentiment label. -/
theorem c1_comment_sentiment_gate (uid : Nat) (username : String)
    (pid : Nat) (text : String) (score : ℚ) (cid now : Nat) (s : DBState) :
    (score < mkRat (-3) 10 →
      (add_comment uid username pid text score cid now s).2.success = false ∧
      (add_comment uid username pid text score cid now s).1 = s) ∧
    (mkRat (-3) 10 ≤ score →
      (add_comment uid username pid text score cid now s).2.success = true ∧
      (add_comment uid username pid text score cid now s).1.comments
        = s.comments ++ [⟨cid, text, now, uid, pid⟩] ∧
      ∃ label, (add_comment uid username pid text score cid now s).2
        = .accepted username text label) := by
  constructor
  · intro h
    simp [add_comment, if_pos h, CommentResult.success]
  · intro h
    have h' : ¬ score < mkRat (-3) 10 := not_lt.mpr h
    refine ⟨?_, ?_, ?_⟩
    · simp [add_comment, if_neg h', CommentResult.success]
    · simp [add_comment, if_neg h']
    · exact ⟨if mkRat 3 10 ≤ score then "positive"
        else if score ≤ mkRat (-1) 10 then "negative" else "neutral",
        by simp [add_comment, if_neg h']⟩

/-- Witness for C1 at concrete inputs: a score of `0.5` is persisted with
a label, a score of `-0.5` is rejected without touching the state. -/
theorem c1_comment_sentiment_gate_witness :
    ((add_comment 1 "alice" 2 "nice" (mkRat 1 2) 3 4
        ⟨[], [], [], [], []⟩).2.success = true ∧
      (add_comment 1 "alice" 2 "nice" (mkRat 1 2) 3 4
        ⟨[], [], [], [], []⟩).1.comments = [⟨3, "nice", 4, 1, 2⟩]) ∧
    (add_comment 1 "alice" 2 "awful" (mkRat (-1) 2) 3 4
        ⟨[], [], [], [], []⟩).2.success = false :=
  ⟨⟨((c1_comment_sentiment_gate 1 "alice" 2 "nice" (mkRat 1 2) 3 4
        ⟨[], [], [], [], []⟩).2 (by decide)).1,
    ((c1_comment_sentiment_gate 1 "alice" 2 "nice" (mkRat 1 2) 3 4
        ⟨[], [], [], [], []⟩).2 (by decide)).2.1⟩,
   ((c1_comment_sentiment_gate 1 "alice" 2 "awful" (mkRat (-1) 2) 3 4
        ⟨[], [], [], [], []⟩).1 (by decide)).1⟩

/-- C2: on a state whose like/save tables satisfy their composite-primary-key
invariant and whose photo exists, one call of each toggle handler flips the
presence of the row for the `(user, photo)` pair, and two successive calls
restore it. -/
theorem c2_toggle_like_save_involutive (uid pid now1 now2 : Nat) (s : DBState)
    (hph : (s.photos.find? (fun ph => ph.id == pid)).isSome)
    (hlu : likesPKUnique s) (hsu : savesPKUnique s) :
    likeExists (toggle_like uid pid now1 s).1 uid pid = !likeExists s uid pid ∧
    likeExists (toggle_like uid pid now2 (toggle_like uid pid now1 s).1).1 uid pid
      = likeExists s uid pid ∧
    saveExists (toggle_save uid pid now1 s).1 uid pid = !saveExists s uid pid ∧
    saveExists (toggle_save uid pid now2 (toggle_save uid pid now1 s).1).1 uid pid
      = saveExists s uid pid :=
  ⟨toggle_like_flip uid pid now1 s hph hlu,
   toggle_like_twice uid pid now1 now2 s hph hlu,
   toggle_save_flip uid pid now1 s hph hsu,
   toggle_save_twice uid pid now1 now2 s hph hsu⟩

/-- Witness for C2: on a one-photo state with an existing like and no save,
a single toggle flips each presence and a double toggle restores it. -/
theorem c2_toggle_like_save_involutive_witness :
    likeExists (toggle_like 1 2 5
        ⟨[⟨2, "f", "t", "c", "l", "p", "a", 0, 1⟩], [], [⟨1, 2, 0⟩], [], []⟩).1 1 2
      = !likeExists ⟨[⟨2, "f", "t", "c", "l", "p", "a", 0, 1⟩], [], [⟨1, 2, 0⟩], [], []⟩ 1 2 ∧
    likeExists (toggle_like 1 2 6 (toggle_like 1 2 5
        ⟨[⟨2, "f", "t", "c", "l", "p", "a", 0, 1⟩], [], [⟨1, 2, 0⟩], [], []⟩).1).1 1 2
      = likeExists ⟨[⟨2, "f", "t", "c", "l", "p", "a", 0, 1⟩], [], [⟨1, 2, 0⟩], [], []⟩ 1 2 ∧
    saveExists (toggle_save 1 2 5
        ⟨[⟨2, "f", "t", "c", "l", "p", "a", 0, 1⟩], [], [⟨1, 2, 0⟩], [], []⟩).1 1 2
      = !saveExists ⟨[⟨2, "f", "t", "c", "l", "p", "a", 0, 1⟩], [], [⟨1, 2, 0⟩], [], []⟩ 1 2 ∧
    saveExists (toggle_save 1 2 6 (toggle_save 1 2 5
        ⟨[⟨2, "f", "t", "c", "l", "p", "a", 0, 1⟩], [], [⟨1, 2, 0⟩], [], []⟩).1).1 1 2
      = saveExists ⟨[⟨2, "f", "t", "c", "l", "p", "a", 0, 1⟩], [], [⟨1, 2, 0⟩], [], []⟩ 1 2 :=
  c2_toggle_like_save_involutive 1 2 5 6
    ⟨[⟨2, "f", "t", "c", "l", "p", "a", 0, 1⟩], [], [⟨1, 2, 0⟩], [], []⟩
    (by decide) (by decide) (by decide)

/-- C8: `add_comment` never checks that the photo exists — on a state with
no photo of the given id it still persists the Comment row and reports
success whenever the score is at least `-0.3` — whereas `toggle_like`,
`toggle_save` and `delete_post` all return the 404 abort (`none` /
`notFound`) with the state untouched. -/
theorem c8_comment_skips_photo_check (uid : Nat) (username : String)
    (pid : Nat) (text : String) (score : ℚ) (cid now : Nat)
    (cfg : StorageConfig) (dbOk : Bool) (s : DBState)
    (hmissing : s.photos.find? (fun ph => ph.id == pid) = none)
    (hscore : mkRat (-3) 10 ≤ score) :
    (add_comment uid username pid text score cid now s).2.success = true ∧
    (add_comment uid username pid text score cid now s).1.comments
      = s.comments ++ [⟨cid, text, now, uid, pid⟩] ∧
    toggle_like uid pid now s = (s, none) ∧
    toggle_save uid pid now s = (s, none) ∧
    delete_post cfg uid pid dbOk s = (s, .notFound) := by
  have h' : ¬ score < mkRat (-3) 10 := not_lt.mpr hscore
  refine ⟨?_, ?_, ?_, ?_, ?_⟩
  · simp [add_comment, if_neg h', CommentResult.success]
  · simp [add_comment, if_neg h']
  · unfold toggle_like; rw [hmissing]
  · unfold toggle_save; rw [hmissing]
  · unfold delete_post; rw [hmissing]

/-- Witness for C8: commenting on the nonexistent photo 9 succeeds and
persists a row while the other three handlers 404. -/
theorem c8_comment_skips_photo_check_witness :
    (add_comment 1 "alice" 9 "great" (mkRat 1 2) 3 4
        ⟨[], [], [], [], []⟩).2.success = true ∧
    (add_comment 1 "alice" 9 "great" (mkRat 1 2) 3 4
        ⟨[], [], [], [], []⟩).1.comments = [⟨3, "great", 4, 1, 9⟩] ∧
    toggle_like 1 9 4 ⟨[], [], [], [], []⟩ = (⟨[], [], [], [], []⟩, none) ∧
    toggle_save 1 9 4 ⟨[], [], [], [], []⟩ = (⟨[], [], [], [], []⟩, none) ∧
    delete_post ⟨false, "photos", ""⟩ 1 9 true ⟨[], [], [], [], []⟩
      = (⟨[], [], [], [], []⟩, .notFound) :=
  c8_comment_skips_photo_check 1 "alice" 9 "great" (mkRat 1 2) 3 4
    ⟨false, "photos", ""⟩ true ⟨[], [], [], [], []⟩ (by decide) (by decide)

/-- C4: a delete request on an existing photo by a logged-in user who is
not the owner returns the 403 JSON failure and leaves the whole state
unchanged — the photo row, its comments and the stored files all remain. -/
theorem c4_delete_requires_ownership (cfg : StorageConfig) (uid pid : Nat)
    (dbOk : Bool) (s : DBState) (photo : PhotoRow)
    (hfind : s.photos.find? (fun ph => ph.id == pid) = some photo)
    (hnotowner : photo.user_id ≠ uid) :
    delete_post cfg uid pid dbOk s = (s, .notAuthorized) := by
  unfold delete_post
  rw [hfind]
  dsimp only
  rw [if_pos hnotowner]

/-- Witness for C4: user 7 cannot delete photo 2 owned by user 1. -/
theorem c4_delete_requires_ownership_witness :
    delete_post ⟨false, "photos", ""⟩ 7 2 true
        ⟨[⟨2, "f", "t", "c", "l", "p", "a", 0, 1⟩], [⟨5, "hey", 0, 7, 2⟩], [], [], ["f"]⟩
      = (⟨[⟨2, "f", "t", "c", "l", "p", "a", 0, 1⟩], [⟨5, "hey", 0, 7, 2⟩], [], [], ["f"]⟩,
         .notAuthorized) :=
  c4_delete_requires_ownership ⟨false, "photos", ""⟩ 7 2 true
    ⟨[⟨2, "f", "t", "c", "l", "p", "a", 0, 1⟩], [⟨5, "hey", 0, 7, 2⟩], [], [], ["f"]⟩
    ⟨2, "f", "t", "c", "l", "p", "a", 0, 1⟩ (by decide) (by decide)

/-- C5: an owner's delete of an existing photo succeeds exactly when the
database delete succeeds; on success the photo row and every Comment row
of that photo are removed (the declared cascade) and the other comments
are kept; on a database failure the handler returns the 500 outcome and
the photo row is not removed. -/
theorem c5_delete_cascade_and_success (cfg : StorageConfig) (uid pid : Nat)
    (dbOk : Bool) (s : DBState) (photo : PhotoRow)
    (hfind : s.photos.find? (fun ph => ph.id == pid) = some photo)
    (howner : photo.user_id = uid) :
    ((delete_post cfg uid pid dbOk s).2 = .ok ↔ dbOk = true) ∧
    (dbOk = true →
      (delete_post cfg uid pid dbOk s).1.comments
        = s.comments.filter (fun c => c.photo_id ≠ pid) ∧
      (∀ c ∈ (delete_post cfg uid pid dbOk s).1.comments, c.photo_id ≠ pid) ∧
      (delete_post cfg uid pid dbOk s).1.photos
        = s.photos.filter (fun ph => ph.id ≠ pid)) ∧
    (dbOk = false →
      (delete_post cfg uid pid dbOk s).2 = .dbFailed ∧
      (delete_post cfg uid pid dbOk s).1.photos = s.photos) := by
  have hno : ¬ photo.user_id ≠ uid := not_not.mpr howner
  unfold delete_post
  rw [hfind]
  dsimp only
  rw [if_neg hno]
  cases dbOk
  · simp
  · rw [if_pos rfl]
    refine ⟨by simp, fun _ => ⟨rfl, fun c hc => ?_, rfl⟩, by simp⟩
    simpa using (List.mem_filter.mp hc).2

/-- Witness for C5: owner 1 deletes photo 2; with a working database the
photo and its comment vanish while a comment of photo 9 stays; with a
failing database the handler reports the 500 outcome and the photo stays. -/
theorem c5_delete_cascade_and_success_witness :
    ((delete_post ⟨false, "photos", ""⟩ 1 2 true
        ⟨[⟨2, "f", "t", "c", "l", "p", "a", 0, 1⟩],
         [⟨5, "hey", 0, 7, 2⟩, ⟨6, "yo", 0, 7, 9⟩], [], [], []⟩).2 = .ok ↔ true = true) ∧
    (true = true →
      (delete_post ⟨false, "photos", ""⟩ 1 2 true
        ⟨[⟨2, "f", "t", "c", "l", "p", "a", 0, 1⟩],
         [⟨5, "hey", 0, 7, 2⟩, ⟨6, "yo", 0, 7, 9⟩], [], [], []⟩).1.comments
        = List.filter (fun c => c.photo_id ≠ 2)
            [⟨5, "hey", 0, 7, 2⟩, ⟨6, "yo", 0, 7, 9⟩] ∧
      (∀ c ∈ (delete_post ⟨false, "photos", ""⟩ 1 2 true
        ⟨[⟨2, "f", "t", "c", "l", "p", "a", 0, 1⟩],
         [⟨5, "hey", 0, 7, 2⟩, ⟨6, "yo", 0, 7, 9⟩], [], [], []⟩).1.comments,
        c.photo_id ≠ 2) ∧
      (delete_post ⟨false, "photos", ""⟩ 1 2 true
        ⟨[⟨2, "f", "t", "c", "l", "p", "a", 0, 1⟩],
         [⟨5, "hey", 0, 7, 2⟩, ⟨6, "yo", 0, 7, 9⟩], [], [], []⟩).1.photos
        = List.filter (fun ph => ph.id ≠ 2) [⟨2, "f", "t", "c", "l", "p", "a", 0, 1⟩]) ∧
    (true = false →
      (delete_post ⟨false, "photos", ""⟩ 1 2 true
        ⟨[⟨2, "f", "t", "c", "l", "p", "a", 0, 1⟩],
         [⟨5, "hey", 0, 7, 2⟩, ⟨6, "yo", 0, 7, 9⟩], [], [], []⟩).2 = .dbFailed ∧
      (delete_post ⟨false, "photos", ""⟩ 1 2 true
        ⟨[⟨2, "f", "t", "c", "l", "p", "a", 0, 1⟩],
         [⟨5, "hey", 0, 7, 2⟩, ⟨6, "yo", 0, 7, 9⟩], [], [], []⟩).1.photos
        = [⟨2, "f", "t", "c", "l", "p", "a", 0, 1⟩]) :=
  c5_delete_cascade_and_success ⟨false, "photos", ""⟩ 1 2 true
    ⟨[⟨2, "f", "t", "c", "l", "p", "a", 0, 1⟩],
     [⟨5, "hey", 0, 7, 2⟩, ⟨6, "yo", 0, 7, 9⟩], [], [], []⟩
    ⟨2, "f", "t", "c", "l", "p", "a", 0, 1⟩ (by decide) (by decide)

/-- C10: `delete_post` never touches the `likes` and `saves` tables — the
cascade of `models.py` is declared only on `Photo.comments` — so after an
owner's successful delete the photo row is gone while every Like and Save
row that references the photo is left behind. -/
theorem c10_delete_leaves_likes_saves (cfg : StorageConfig) (uid pid : Nat)
    (dbOk : Bool) (s : DBState) (photo : PhotoRow)
    (hfind : s.photos.find? (fun ph => ph.id == pid) = some photo)
    (howner : photo.user_id = uid) :
    (delete_post cfg uid pid dbOk s).1.likes = s.likes ∧
    (delete_post cfg uid pid dbOk s).1.saves = s.saves ∧
    (dbOk = true →
      (∀ ph ∈ (delete_post cfg uid pid dbOk s).1.photos, ph.id ≠ pid) ∧
      (∀ l ∈ s.likes, l.photo_id = pid →
        l ∈ (delete_post cfg uid pid dbOk s).1.likes) ∧
      (∀ sv ∈ s.saves, sv.photo_id = pid →
        sv ∈ (delete_post cfg uid pid dbOk s).1.saves)) := by
  have hno : ¬ photo.user_id ≠ uid := not_not.mpr howner
  unfold delete_post
  rw [hfind]
  dsimp only
  rw [if_neg hno]
  cases dbOk
  · simp
  · rw [if_pos rfl]
    refine ⟨rfl, rfl, fun _ => ⟨fun ph hph => ?_, fun l hl _ => hl, fun sv hsv _ => hsv⟩⟩
    simpa using (List.mem_filter.mp hph).2

/-- Witness for C10: owner 1 deletes photo 2; the photo row disappears but
the Like and Save rows for photo 2 survive. -/
theorem c10_delete_leaves_likes_saves_witness :
    (delete_post ⟨false, "photos", ""⟩ 1 2 true
        ⟨[⟨2, "f", "t", "c", "l", "p", "a", 0, 1⟩], [], [⟨7, 2, 0⟩], [⟨8, 2, 0⟩], []⟩).1.likes
      = [⟨7, 2, 0⟩] ∧
    (delete_post ⟨false, "photos", ""⟩ 1 2 true
        ⟨[⟨2, "f", "t", "c", "l", "p", "a", 0, 1⟩], [], [⟨7, 2, 0⟩], [⟨8, 2, 0⟩], []⟩).1.saves
      = [⟨8, 2, 0⟩] ∧
    (true = true →
      (∀ ph ∈ (delete_post ⟨false, "photos", ""⟩ 1 2 true
          ⟨[⟨2, "f", "t", "c", "l", "p", "a", 0, 1⟩], [], [⟨7, 2, 0⟩], [⟨8, 2, 0⟩], []⟩).1.photos,
        ph.id ≠ 2) ∧
      (∀ l ∈ [(⟨7, 2, 0⟩ : LikeRow)], l.photo_id = 2 →
        l ∈ (delete_post ⟨false, "photos", ""⟩ 1 2 true
          ⟨[⟨2, "f", "t", "c", "l", "p", "a", 0, 1⟩], [], [⟨7, 2, 0⟩], [⟨8, 2, 0⟩], []⟩).1.likes) ∧
      (∀ sv ∈ [(⟨8, 2, 0⟩ : SaveRow)], sv.photo_id = 2 →
        sv ∈ (delete_post ⟨false, "photos", ""⟩ 1 2 true
          ⟨[⟨2, "f", "t", "c", "l", "p", "a", 0, 1⟩], [], [⟨7, 2, 0⟩], [⟨8, 2, 0⟩], []⟩).1.saves)) :=
  c10_delete_leaves_likes_saves ⟨false, "photos", ""⟩ 1 2 true
    ⟨[⟨2, "f", "t", "c", "l", "p", "a", 0, 1⟩], [], [⟨7, 2, 0⟩], [⟨8, 2, 0⟩], []⟩
    ⟨2, "f", "t", "c", "l", "p", "a", 0, 1⟩ (by decide) (by decide)

/-- C3: when neither storage backend is available (no truthy blob client
with a truthy container name, and a falsy local upload folder), the upload
handler leaves the state unchanged — in particular it never creates a
Photo row — and an actual upload attempt by a creator with a decodable
file is answered with the "No storage configured" outcome. -/
theorem c3_upload_no_storage (cfg : StorageConfig) (role : String)
    (uid : Nat) (file : Option (String × Option ImgData)) (filename : String)
    (img : ImgData) (title caption location people : String) (pid now : Nat)
    (s : DBState)
    (hcloud : cfg.blob_service_client = false ∨ cfg.azure_container_name = "")
    (hlocal : cfg.local_upload_folder = "") :
    (creator_dashboard cfg role uid file title caption location people
        pid now s).1 = s ∧
    (role = "creator" →
      (creator_dashboard cfg role uid (some (filename, some img))
          title caption location people pid now s).2 = .noStorage) := by
  constructor
  · unfold creator_dashboard
    split
    · rfl
    · split
      · rfl
      · rfl
      · rcases hcloud with h | h <;> simp [h, hlocal]
  · intro hrole
    unfold creator_dashboard
    rw [if_neg (by simp [hrole])]
    dsimp only
    rcases hcloud with h | h <;> simp [h, hlocal]

/-- Witness for C3: with no blob client and an empty local folder, a
creator's upload of a decodable file changes nothing and reports that no
storage is configured. -/
theorem c3_upload_no_storage_witness :
    (creator_dashboard ⟨false, "photos", ""⟩ "creator" 1
        (some ("x.jpg", some ⟨2000, 1000, 100, 3, 2, 1⟩))
        "t" "c" "l" "p" 5 6 ⟨[], [], [], [], []⟩).1 = ⟨[], [], [], [], []⟩ ∧
    (creator_dashboard ⟨false, "photos", ""⟩ "creator" 1
        (some ("x.jpg", some ⟨2000, 1000, 100, 3, 2, 1⟩))
        "t" "c" "l" "p" 5 6 ⟨[], [], [], [], []⟩).2 = .noStorage :=
  ⟨(c3_upload_no_storage ⟨false, "photos", ""⟩ "creator" 1
      (some ("x.jpg", some ⟨2000, 1000, 100, 3, 2, 1⟩)) "x.jpg"
      ⟨2000, 1000, 100, 3, 2, 1⟩ "t" "c" "l" "p" 5 6 ⟨[], [], [], [], []⟩
      (Or.inl rfl) rfl).1,
   (c3_upload_no_storage ⟨false, "photos", ""⟩ "creator" 1
      (some ("x.jpg", some ⟨2000, 1000, 100, 3, 2, 1⟩)) "x.jpg"
      ⟨2000, 1000, 100, 3, 2, 1⟩ "t" "c" "l" "p" 5 6 ⟨[], [], [], [], []⟩
      (Or.inl rfl) rfl).2 rfl⟩

/-- C9: the "no storage configured" branch of the upload handler is
unreachable for the configuration the process builds at startup: the local
upload folder is joined from the root path and two fixed components, hence
non-empty, so every request takes the cloud branch, the local branch, or
one of the early exits — never the rejection branch. -/
theorem c9_no_storage_branch_unreachable (root : String) (cfg : StorageConfig)
    (hcfg : cfg.local_upload_folder = LOCAL_UPLOAD_FOLDER root)
    (role : String) (uid : Nat) (file : Option (String × Option ImgData))
    (title caption location people : String) (pid now : Nat) (s : DBState) :
    LOCAL_UPLOAD_FOLDER root ≠ "" ∧
    (creator_dashboard cfg role uid file title caption location people
        pid now s).2 ≠ .noStorage := by
  refine ⟨local_upload_folder_ne_empty root, ?_⟩
  have hlocal : cfg.local_upload_folder ≠ "" :=
    hcfg ▸ local_upload_folder_ne_empty root
  unfold creator_dashboard
  split
  · simp
  · split
    · simp
    · simp
    · split
      · simp
      · simp [hlocal]

/-- Witness for C9: with the startup folder for root path "/app" in the
configuration and no Azure client, a creator upload is stored rather than
rejected. -/
theorem c9_no_storage_branch_unreachable_witness :
    LOCAL_UPLOAD_FOLDER "/app" ≠ "" ∧
    (creator_dashboard ⟨false, "photos", LOCAL_UPLOAD_FOLDER "/app"⟩ "creator" 1
        (some ("x.jpg", some ⟨2000, 1000, 100, 3, 2, 1⟩))
        "t" "c" "l" "p" 5 6 ⟨[], [], [], [], []⟩).2 ≠ .noStorage :=
  c9_no_storage_branch_unreachable "/app" ⟨false, "photos", LOCAL_UPLOAD_FOLDER "/app"⟩
    rfl "creator" 1 (some ("x.jpg", some ⟨2000, 1000, 100, 3, 2, 1⟩))
    "t" "c" "l" "p" 5 6 ⟨[], [], [], [], []⟩

/-- C6: on a successfully decoded image the analysis result is exactly
three pipe-joined tags — a resolution tag that is the high-definition tag
iff the pixel area exceeds 1,000,000, a brightness tag bucketing the mean
grayscale luminance by the fixed thresholds 150 and 80, and a tone tag
that is warm iff red is strictly greatest and cool iff blue is strictly
greatest in the 1x1 downscaled pixel — while any decode/stat error yields
the constant fallback label. -/
theorem c6_analyze_image_spec :
    analyze_image none = "Standard Photo" ∧
    ∀ d : ImgData, ∃ rtag btag ttag : String,
      analyze_image (some d) = rtag ++ " | " ++ btag ++ " | " ++ ttag ∧
      (rtag = "HD ᴴᴰ" ∨ rtag = "SD") ∧
      (rtag = "HD ᴴᴰ" ↔ 1000000 < d.width * d.height) ∧
      (btag = "Bright ☀️" ∨ btag = "Dark 🌙" ∨ btag = "Neutral Lighting ☁️") ∧
      (btag = "Bright ☀️" ↔ 150 < d.meanLum) ∧
      (btag = "Dark 🌙" ↔ d.meanLum < 80) ∧
      (ttag = "Warm Tone 🔴" ∨ ttag = "Cool Tone 🔵" ∨ ttag = "Balanced Color 🎨") ∧
      (ttag = "Warm Tone 🔴" ↔ (d.pxG < d.pxR ∧ d.pxB < d.pxR)) ∧
      (ttag = "Cool Tone 🔵" ↔ (d.pxR < d.pxB ∧ d.pxG < d.pxB)) := by
  refine ⟨rfl, fun d => ?_⟩
  refine ⟨if d.width * d.height > 1000000 then "HD ᴴᴰ" else "SD",
      if d.meanLum > 150 then "Bright ☀️"
        else if d.meanLum < 80 then "Dark 🌙" else "Neutral Lighting ☁️",
      if d.pxR > d.pxG ∧ d.pxR > d.pxB then "Warm Tone 🔴"
        else if d.pxB > d.pxR ∧ d.pxB > d.pxG then "Cool Tone 🔵"
        else "Balanced Color 🎨",
      intercalate_three _ _ _, ?_, ?_, ?_, ?_, ?_, ?_, ?_, ?_⟩
  · split_ifs <;> simp
  · split_ifs with h <;> simp [h]
  · split_ifs <;> simp
  · split_ifs with h1 h2 <;> simp [h1]
  · split_ifs with h1 h2
    · simp
      linarith
    · simp [h2]
    · simp [h2]
  · split_ifs <;> simp
  · split_ifs with h1 h2 <;> simp [h1]
  · split_ifs with h1 h2
    · simp
      omega
    · simp [h2]
    · simp [h2]


/-- Counterexample to C7: the comment "great" with polarity `0.5` is
classified "positive" and the handler returns that label, but the Comment
row persisted for it carries no field equal to the label — the table has
no sentiment column, so the derived label is not stored alongside the
text. -/
theorem c7_sentiment_not_stored_counterexample :
    (add_comment 1 "alice" 2 "great" (mkRat 1 2) 3 4
        ⟨[], [], [], [], []⟩).2
      = .accepted "alice" "great" "positive" ∧
    (add_comment 1 "alice" 2 "great" (mkRat 1 2) 3 4
        ⟨[], [], [], [], []⟩).1.comments = [⟨3, "great", 4, 1, 2⟩] ∧
    ∀ c ∈ (add_comment 1 "alice" 2 "great" (mkRat 1 2) 3 4
        ⟨[], [], [], [], []⟩).1.comments,
      "positive" ∉ c.storedStrings := by decide

/-- C7 (amended): a persisted Comment row stores the submitted free text
(the derived sentiment label is only returned in the handler's JSON, not
persisted), and no handler mutates an existing comment row — every
operation either appends the new row, leaves the comment table unchanged,
or deletes rows, so every surviving row is one of the original rows. -/
theorem c7_comment_rows_immutable_amended (uid uid2 : Nat) (username : String)
    (pid pid2 : Nat) (text : String) (score : ℚ) (cid now now2 : Nat)
    (cfg : StorageConfig) (role : String)
    (file : Option (String × Option ImgData))
    (title caption location people : String) (dbOk : Bool) (s : DBState) :
    ((add_comment uid username pid text score cid now s).2.success = true →
      (add_comment uid username pid text score cid now s).1.comments
        = s.comments ++ [⟨cid, text, now, uid, pid⟩] ∧
      ∃ label, (add_comment uid username pid text score cid now s).2
        = .accepted username text label) ∧
    (toggle_like uid2 pid2 now2 s).1.comments = s.comments ∧
    (toggle_save uid2 pid2 now2 s).1.comments = s.comments ∧
    (∀ c ∈ (delete_post cfg uid2 pid2 dbOk s).1.comments, c ∈ s.comments) ∧
    (creator_dashboard cfg role uid2 file title caption location people
        pid2 now2 s).1.comments = s.comments := by
  refine ⟨?_, ?_, ?_, ?_, ?_⟩
  · intro hsucc
    by_cases h : score < mkRat (-3) 10
    · exfalso
      simp [add_comment, if_pos h, CommentResult.success] at hsucc
    · exact ⟨by simp [add_comment, if_neg h],
        if mkRat 3 10 ≤ score then "positive"
          else if score ≤ mkRat (-1) 10 then "negative" else "neutral",
        by simp [add_comment, if_neg h]⟩
  · unfold toggle_like
    split
    · rfl
    · split <;> rfl
  · unfold toggle_save
    split
    · rfl
    · split <;> rfl
  · unfold delete_post
    split
    · exact fun c hc => hc
    · split
      · exact fun c hc => hc
      · split
        · exact fun c hc => (List.mem_filter.mp hc).1
        · exact fun c hc => hc
  · unfold creator_dashboard
    split
    · rfl
    · split
      · rfl
      · rfl
      · split
        · rfl
        · split <;> rfl

/-- Witness for C7 (amended) at concrete inputs: an accepted comment is
appended with its text and a label is returned, and the other handlers
leave the lone existing comment row intact. -/
theorem c7_comment_rows_immutable_amended_witness :
    ((add_comment 1 "alice" 2 "nice" (mkRat 1 2) 3 4
        ⟨[], [⟨9, "old", 0, 1, 2⟩], [], [], []⟩).2.success = true →
      (add_comment 1 "alice" 2 "nice" (mkRat 1 2) 3 4
        ⟨[], [⟨9, "old", 0, 1, 2⟩], [], [], []⟩).1.comments
        = [⟨9, "old", 0, 1, 2⟩] ++ [⟨3, "nice", 4, 1, 2⟩] ∧
      ∃ label, (add_comment 1 "alice" 2 "nice" (mkRat 1 2) 3 4
        ⟨[], [⟨9, "old", 0, 1, 2⟩], [], [], []⟩).2
        = .accepted "alice" "nice" label) ∧
    (toggle_like 7 2 5 ⟨[], [⟨9, "old", 0, 1, 2⟩], [], [], []⟩).1.comments
      = [⟨9, "old", 0, 1, 2⟩] ∧
    (toggle_save 7 2 5 ⟨[], [⟨9, "old", 0, 1, 2⟩], [], [], []⟩).1.comments
      = [⟨9, "old", 0, 1, 2⟩] ∧
    (∀ c ∈ (delete_post ⟨false, "photos", ""⟩ 7 2 true
        ⟨[], [⟨9, "old", 0, 1, 2⟩], [], [], []⟩).1.comments,
      c ∈ [(⟨9, "old", 0, 1, 2⟩ : CommentRow)]) ∧
    (creator_dashboard ⟨false, "photos", ""⟩ "creator" 7
        (some ("x.jpg", some ⟨2000, 1000, 100, 3, 2, 1⟩))
        "t" "c" "l" "p" 5 6 ⟨[], [⟨9, "old", 0, 1, 2⟩], [], [], []⟩).1.comments
      = [⟨9, "old", 0, 1, 2⟩] :=
  c7_comment_rows_immutable_amended 1 7 "alice" 2 2 "nice" (mkRat 1 2) 3 4 5
    ⟨false, "photos", ""⟩ "creator"
    (some ("x.jpg", some ⟨2000, 1000, 100, 3, 2, 1⟩))
    "t" "c" "l" "p" true ⟨[], [⟨9, "old", 0, 1, 2⟩], [], [], []⟩
